import Mathlib

/-!
Verification development for the `state-store` scope engine
(`src/index.ts`).  The file shallowly embeds the canonical
Store-owning-Scopes variant of the code — `ScopeImpl` (src/index.ts
lines 1176-1453) and `StoreImpl` (lines 1455-1555) — together with the
earlier free-standing variant's `composeScope`/`ComposeScopeImpl`
(lines 583-722), and proves properties of those embeddings.

Modelling conventions:
* JS values are the inductive `Value`; `deepFreeze`'s in-place freezing
  is instrumented by a `frozen` flag on object nodes.
* JS `Map`s are association lists in insertion order (keys unique in
  every state the code can build).
* Action transformation functions are the small language `ActionBody`,
  which covers plain `(state, props) => e` functions, throwing
  functions, the two builtin actions (which read/write `_initState`),
  and an action body that synchronously performs a nested `dispatch`
  on its own scope.
* Listener callbacks are instrumented: the engine's fan-out is recorded
  as a call log `(listenerId, event)`, and a listener may be flagged as
  throwing to exercise the per-listener catch.
* DevTool hooks are recorded in an output log (`DevEntry`); the hook
  object itself is a passive observer and never influences the engine,
  exactly as in the source.
* Scope middleware is modelled for the empty middleware list (the
  default configuration; `this._middleware.forEach(...)` over `[]` is a
  no-op).  Macro registration, the dynamic member installation
  `this[actionName] = actionDispatcher` and the `onChangeScope` /
  `onChangeStore` notifications are not needed by any property proved
  here and are noted where they occur.
-/

/-- A JavaScript value as the scope engine observes it.  Objects carry a
`frozen` flag instrumenting `Object.freeze`'s in-place mutation. -/
inductive Value where
  | vNull : Value
  | vUndef : Value
  | vNum (n : Int) : Value
  | vStr (s : String) : Value
  | vBool (b : Bool) : Value
  | vObj (frozen : Bool) (fields : List (String × Value)) : Value
deriving Repr

/-- JS truthiness (`!!v`).  NaN does not arise in the Int model. -/
def Value.truthy : Value → Bool
  | .vNull => false
  | .vUndef => false
  | .vNum n => decide (n ≠ 0)
  | .vStr s => decide (s ≠ "")
  | .vBool b => b
  | .vObj _ _ => true

/-- The test `typeof v === 'object'`: true for `null` and for objects. -/
def Value.typeofIsObject : Value → Bool
  | .vNull => true
  | .vObj _ _ => true
  | _ => false

/-- Whether `v` is a non-null object (the spec's canonical freeze condition). -/
def Value.isNonNullObject : Value → Bool
  | .vObj _ _ => true
  | _ => false

mutual
/-- `deepFreeze` (utils): recursively freeze every object in the graph.
Primitives are returned unchanged (`Object.freeze` is a no-op on them). -/
def deepFreezeVal : Value → Value
  | .vObj _ fields => .vObj true (deepFreezeFields fields)
  | v => v

/-- Pointwise `deepFreeze` over an object's own properties. -/
def deepFreezeFields : List (String × Value) → List (String × Value)
  | [] => []
  | (k, v) :: rest => (k, deepFreezeVal v) :: deepFreezeFields rest
end

mutual
/-- Erase the freezing instrumentation, recovering the raw data.  Two
values with the same erasure are the same JS object graph up to
in-place `Object.freeze` calls. -/
def Value.eraseFrozen : Value → Value
  | .vObj _ fields => .vObj false (eraseFrozenFields fields)
  | v => v

/-- Pointwise erasure over an object's own properties. -/
def eraseFrozenFields : List (String × Value) → List (String × Value)
  | [] => []
  | (k, v) :: rest => (k, Value.eraseFrozen v) :: eraseFrozenFields rest
end

mutual
/-- Every object node in the graph is frozen. -/
def Value.deepFrozen : Value → Bool
  | .vObj fr fields => fr && deepFrozenFields fields
  | _ => true

/-- `deepFrozen` over an object's own properties. -/
def deepFrozenFields : List (String × Value) → Bool
  | [] => true
  | (_, v) :: rest => Value.deepFrozen v && deepFrozenFields rest
end

/-- First-match association-list lookup, the model of `Map.get` (keys
are unique in every map the engine builds). -/
def lookupL {α : Type} : List (String × α) → String → Option α
  | [], _ => none
  | (k, v) :: rest, key => if k = key then some v else lookupL rest key

/-- `Map.set`: overwrite the entry in place when the key exists,
otherwise append (JS `Map` keeps insertion order on overwrite). -/
def setKey {α : Type} : List (String × α) → String → α → List (String × α)
  | [], key, v => [(key, v)]
  | (k, w) :: rest, key, v =>
      if k = key then (key, v) :: rest else (k, w) :: setKey rest key v

/-- `Map.delete`: remove the entry with the given key. -/
def delKey {α : Type} : List (String × α) → String → List (String × α)
  | [], _ => []
  | (k, w) :: rest, key => if k = key then rest else (k, w) :: delKey rest key

/-- Raw `Error`s thrown by the engine's own precondition checks (never
wrapped unless they escape from inside an action body). -/
inductive EngineError where
  | scopeLocked : EngineError
  | duplicateAction (name : String) : EngineError
  | unknownAction (name : String) : EngineError
  | dispatchUnavailable : EngineError
  | actionNotPresent (name : String) : EngineError
  | storeLocked : EngineError
  | duplicateScopeName (name : String) : EngineError
  | fuelExhausted : EngineError
deriving Repr, DecidableEq

/-- A `ScopeEvent` (src/index.ts lines 805-814).  `parent` snapshots
`this._contextEvent ?? null` at build time; `children` is the
`childrenEvents` array. -/
inductive ScopeEvent where
  | mk (props oldState newState : Value)
       (actionName scopeName storeName : String)
       (parent : Option ScopeEvent)
       (children : List ScopeEvent) : ScopeEvent

def ScopeEvent.props : ScopeEvent → Value
  | .mk p _ _ _ _ _ _ _ => p

def ScopeEvent.oldState : ScopeEvent → Value
  | .mk _ o _ _ _ _ _ _ => o

def ScopeEvent.newState : ScopeEvent → Value
  | .mk _ _ n _ _ _ _ _ => n

def ScopeEvent.actionName : ScopeEvent → String
  | .mk _ _ _ a _ _ _ _ => a

def ScopeEvent.scopeName : ScopeEvent → String
  | .mk _ _ _ _ s _ _ _ => s

def ScopeEvent.storeName : ScopeEvent → String
  | .mk _ _ _ _ _ s _ _ => s

def ScopeEvent.children : ScopeEvent → List ScopeEvent
  | .mk _ _ _ _ _ _ _ c => c

/-- `childrenEvents.push(child)` on an event record. -/
def ScopeEvent.pushChild : ScopeEvent → ScopeEvent → ScopeEvent
  | .mk p o n a s st pa ch, child => .mk p o n a s st pa (ch ++ [child])

mutual
/-- The `reason` field of a `ScopeError`: a raw engine `Error`, a value
thrown by user action code, or a `ScopeError` thrown by a nested
`dispatch` call inside the action body. -/
inductive Reason where
  | rawError (e : EngineError) : Reason
  | thrownValue (v : Value) : Reason
  | scopeErr (e : ScopeError) : Reason

/-- A `ScopeError` record (src/index.ts lines 815-821). -/
inductive ScopeError where
  | mk (reason : Reason) (oldState : Value) (scopeName actionName : String)
       (props : Value) : ScopeError
end

def ScopeError.reason : ScopeError → Reason
  | .mk r _ _ _ _ => r

def ScopeError.oldState : ScopeError → Value
  | .mk _ o _ _ _ => o

def ScopeError.scopeName : ScopeError → String
  | .mk _ _ s _ _ => s

def ScopeError.actionName : ScopeError → String
  | .mk _ _ _ a _ => a

def ScopeError.propsOf : ScopeError → Value
  | .mk _ _ _ _ p => p

/-- What `dispatch` can throw: a raw engine `Error` (unknown action /
dispatch unavailable, thrown before the `try` block) or a `ScopeError`
(thrown by `onRejected`). -/
inductive Thrown where
  | raw (e : EngineError) : Thrown
  | scopeError (e : ScopeError) : Thrown

/-- A DevTool hook invocation recorded by the engine. -/
inductive DevEntry where
  | onAction (e : ScopeEvent) : DevEntry
  | onActionError (e : ScopeError) : DevEntry
  | onActionListenerError (e : ScopeError) : DevEntry

/-- An action transformation as registered in `_actions`. -/
inductive ActionBody where
  | pureFn (f : Value → Value → Value) : ActionBody
  | throwFn (f : Value → Value → Value) : ActionBody
  | resetBuiltin : ActionBody
  | restoreBuiltin : ActionBody
  | nestedDispatch (inner : String) (innerProps : Value) : ActionBody

/-- A subscribed listener as stored in `_listeners`: its id, the action
name filter it was subscribed with (`[]` stores the raw listener), and
whether the user callback throws when invoked (to exercise the
per-listener catch). -/
structure ListenerEntry where
  id : String
  filter : List String
  throws : Bool
  throwReason : Value

/-- The mutable state of a `ScopeImpl` (src/index.ts lines 1176-1214).
`context` is `_context` (the JS field holds `null` outside dispatch,
modelled as `Value.vNull`). -/
structure ScopeState where
  storeName : String
  name : String
  isImmutabilityEnabled : Bool
  isSubscribedMacroAutoCreateEnabled : Bool
  state : Value
  initState : Value
  isFrozen : Bool
  context : Value
  contextEvent : Option ScopeEvent
  isActionInProgress : Bool
  actions : List (String × ActionBody)
  listeners : List ListenerEntry
  listenerNextId : Nat

def RESET_SCOPE_ACTION : String := "_reset"

def RESTORE_SCOPE_ACTION : String := "_restore"

/-- `get supportActions()` — `Array.from(this._actions.keys())`. -/
def ScopeState.supportActions (sc : ScopeState) : List String :=
  sc.actions.map Prod.fst

/-- `get isActionDispatchAvailable()` — `!this._isActionInProgress`. -/
def ScopeState.isActionDispatchAvailable (sc : ScopeState) : Bool :=
  !sc.isActionInProgress

/-- `registerAction` (src/index.ts lines 1236-1271).  The reflective
clause `this.isSubscribedMacroAutoCreateEnabled && actionName in this`
of the duplicate check only applies when the auto-create flag is set
and is not modelled (no property proved here enables that flag); the
installation `this[actionName] = actionDispatcher`, the auto-created
subscription macro and the `onChangeScope` notification have no
bearing on the engine state modelled here. -/
def registerAction (sc : ScopeState) (actionName : String) (body : ActionBody) :
    Except EngineError ScopeState :=
  if sc.isFrozen then .error .scopeLocked
  else if (lookupL sc.actions actionName).isSome then .error (.duplicateAction actionName)
  else .ok { sc with actions := sc.actions ++ [(actionName, body)] }

/-- The `ScopeImpl` constructor (src/index.ts lines 1195-1214): fields
are initialised from the config, the two builtin actions are
registered, and only then is `this._isFrozen = isFrozen` assigned —
until that point the field is `undefined`, i.e. falsy, so the builtin
registrations always succeed. -/
def mkScope (storeName name : String) (initState : Value)
    (isImmutabilityEnabled isSubscribedMacroAutoCreateEnabled isFrozen : Bool) : ScopeState :=
  let base : ScopeState :=
    { storeName := storeName
      name := name
      isImmutabilityEnabled := isImmutabilityEnabled
      isSubscribedMacroAutoCreateEnabled := isSubscribedMacroAutoCreateEnabled
      state := initState
      initState := initState
      isFrozen := false
      context := Value.vNull
      contextEvent := none
      isActionInProgress := false
      actions := []
      listeners := []
      listenerNextId := 0 }
  match registerAction base RESET_SCOPE_ACTION .resetBuiltin with
  | .error _ => { base with isFrozen := isFrozen }
  | .ok s1 =>
    match registerAction s1 RESTORE_SCOPE_ACTION .restoreBuiltin with
    | .error _ => { s1 with isFrozen := isFrozen }
    | .ok s2 => { s2 with isFrozen := isFrozen }

/-- The props side of the immutability guard (src/index.ts line 1323):
`if (this.isImmutabilityEnabled && !!props && typeof props === 'object')
deepFreeze(props)`. -/
def freezeProps (isImmutabilityEnabled : Bool) (props : Value) : Value :=
  if isImmutabilityEnabled && props.truthy && props.typeofIsObject
  then deepFreezeVal props else props

/-- The new-state side of the immutability guard (src/index.ts line
1359): `if (this.isImmutabilityEnabled && !!newState && typeof props
=== 'object') deepFreeze(newState)` — note the source tests the type of
`props`, not of `newState`. -/
def freezeNewState (isImmutabilityEnabled : Bool) (props newState : Value) : Value :=
  if isImmutabilityEnabled && newState.truthy && props.typeofIsObject
  then deepFreezeVal newState else newState

/-- `buildScopeEvent` (src/index.ts lines 1347-1356). -/
def buildScopeEvent (sc : ScopeState) (actionName : String) (props oldState newState : Value) :
    ScopeEvent :=
  .mk props oldState newState actionName sc.name sc.storeName sc.contextEvent []

/-- The per-listener fan-out of `dispatchEvent` (src/index.ts lines
1371-1379): each stored listener is invoked with the event (the stored
function is the raw listener when the subscription had no filter,
otherwise the `accurateListener` wrapper that forwards only matching
action names); a throwing user callback is caught and reported to
`onActionListenerError`.  Returns the DevTool log and the user-listener
call log, in invocation order. -/
def listenerFanout (mkErr : Reason → ScopeError) (ev : ScopeEvent) :
    List ListenerEntry → List DevEntry × List (String × ScopeEvent)
  | [] => ([], [])
  | l :: rest =>
    let tail := listenerFanout mkErr ev rest
    let fires := l.filter.isEmpty || l.filter.contains ev.actionName
    if fires then
      if l.throws then ((DevEntry.onActionListenerError (mkErr (.thrownValue l.throwReason))) :: tail.1, tail.2)
      else (tail.1, (l.id, ev) :: tail.2)
    else tail

/-- `dispatchEvent` (src/index.ts lines 1371-1380): `onAction` first,
then the listener fan-out. -/
def dispatchEventLog (mkErr : Reason → ScopeError) (listeners : List ListenerEntry)
    (ev : ScopeEvent) : List DevEntry × List (String × ScopeEvent) :=
  let fan := listenerFanout mkErr ev listeners
  (DevEntry.onAction ev :: fan.1, fan.2)

/-- Fold `dispatchEvent` over a list of events in order. -/
def dispatchEventsLog (mkErr : Reason → ScopeError) (listeners : List ListenerEntry) :
    List ScopeEvent → List DevEntry × List (String × ScopeEvent)
  | [] => ([], [])
  | ev :: rest =>
    let here := dispatchEventLog mkErr listeners ev
    let tail := dispatchEventsLog mkErr listeners rest
    (here.1 ++ tail.1, here.2 ++ tail.2)

/-- The outcome of one `dispatch` call: the scope after the call, the
DevTool log, the user-listener call log, and the returned new state or
the thrown value. -/
structure DispatchResult where
  scope : ScopeState
  devLog : List DevEntry
  calls : List (String × ScopeEvent)
  result : Except Thrown Value

/-- `ScopeImpl.dispatch` (src/index.ts lines 1312-1409), fuel-bounded so
that an action body's own nested `dispatch` call can be modelled (the
fuel never runs out on the source's behaviour: the availability guard
stops every nested call at depth one).  The middleware `forEach` is a
no-op for the empty middleware list modelled here. -/
def dispatchFuel : Nat → ScopeState → String → Value → Bool → DispatchResult
  | 0, sc, _, _, _ =>
      { scope := sc, devLog := [], calls := [], result := .error (.raw .fuelExhausted) }
  | Nat.succ fuel, sc, actionName, props0, emitEvent =>
    match lookupL sc.actions actionName with
    | none =>
        { scope := sc, devLog := [], calls := [],
          result := .error (.raw (.unknownAction actionName)) }
    | some act =>
      if sc.isActionInProgress then
        { scope := sc, devLog := [], calls := [],
          result := .error (.raw .dispatchUnavailable) }
      else
        let props := freezeProps sc.isImmutabilityEnabled props0
        let isRootAction := !sc.isActionInProgress
        let sc1 := if isRootAction then { sc with isActionInProgress := true } else sc
        let oldState := if isRootAction then sc1.state else sc1.context
        let mkErr : Reason → ScopeError := fun reason =>
          .mk reason oldState sc.name actionName props
        -- `onFulfilled(action(oldState, props))` inside `try`; the
        -- action body may itself mutate the scope (builtin restore) or
        -- recursively dispatch (nested call, consuming fuel).
        let run : ScopeState × List DevEntry × List (String × ScopeEvent) × Except Reason Value :=
          match act with
          | .pureFn f => (sc1, [], [], .ok (f oldState props))
          | .throwFn f => (sc1, [], [], .error (.thrownValue (f oldState props)))
          | .resetBuiltin => (sc1, [], [], .ok sc1.initState)
          | .restoreBuiltin => ({ sc1 with initState := props }, [], [], .ok props)
          | .nestedDispatch inner innerProps =>
            let r := dispatchFuel fuel sc1 inner innerProps true
            (r.scope, r.devLog, r.calls,
              match r.result with
              | .ok v => .ok v
              | .error (.raw e) => .error (.rawError e)
              | .error (.scopeError e) => .error (.scopeErr e))
        match run with
        | (sc2, nestedDev, nestedCalls, res) =>
          match res with
          | .ok newState0 =>
            -- onFulfilled (src/index.ts lines 1358-1394)
            let newState := freezeNewState sc2.isImmutabilityEnabled props newState0
            let sc3 := { sc2 with context := newState }
            let sc4 :=
              if emitEvent then
                if isRootAction then
                  { sc3 with contextEvent := some (buildScopeEvent sc3 actionName props oldState newState) }
                else
                  -- `this?._contextEvent.childrenEvents.push(...)`; when
                  -- `_contextEvent` is null the source would raise a
                  -- TypeError — unreachable either way: the
                  -- availability guard forces `isRootAction` to be true
                  match sc3.contextEvent with
                  | some ev =>
                      let child := buildScopeEvent sc3 actionName props oldState newState
                      { sc3 with contextEvent := some (ev.pushChild child) }
                  | none => sc3
              else sc3
            if isRootAction then
              let sc5 := { sc4 with state := newState }
              let flush :=
                match sc5.contextEvent with
                | some ev => dispatchEventsLog mkErr sc5.listeners (ev.children ++ [ev])
                | none => ([], [])
              let sc6 := { sc5 with context := Value.vNull, contextEvent := none,
                                    isActionInProgress := false }
              { scope := sc6, devLog := nestedDev ++ flush.1,
                calls := nestedCalls ++ flush.2, result := .ok newState }
            else
              { scope := sc4, devLog := nestedDev, calls := nestedCalls, result := .ok newState }
          | .error reason =>
            -- `catch (e) { throw onRejected(e) }` (lines 1396-1408):
            -- builds the ScopeError, reports it to `onActionError` when
            -- this is the root call, and rethrows the record; note that
            -- `_isActionInProgress` is not reset on this path.
            let err := mkErr reason
            let errDev := if isRootAction then [DevEntry.onActionError err] else []
            { scope := sc2, devLog := nestedDev ++ errDev, calls := nestedCalls,
              result := .error (.scopeError err) }

/-- Enough fuel for every behaviour the source can exhibit: the
availability guard rejects any nested call, so recursion depth is
bounded by one. -/
def dispatchFuelBound : Nat := 8

/-- `dispatch` at the default fuel bound. -/
def ScopeState.dispatch (sc : ScopeState) (actionName : String) (props : Value)
    (emitEvent : Bool) : DispatchResult :=
  dispatchFuel dispatchFuelBound sc actionName props emitEvent

/-- `reset(emitEvent?)` (src/index.ts lines 1445-1447). -/
def ScopeState.reset (sc : ScopeState) (emitEvent : Bool) : DispatchResult :=
  sc.dispatch RESET_SCOPE_ACTION Value.vNull emitEvent

/-- `restore(restoredState, emitEvent?)` (src/index.ts lines 1449-1451). -/
def ScopeState.restoreTo (sc : ScopeState) (restoredState : Value) (emitEvent : Bool) :
    DispatchResult :=
  sc.dispatch RESTORE_SCOPE_ACTION restoredState emitEvent

/-- `subscribe` (src/index.ts lines 1411-1433): every filtered action
name must be registered; the listener is stored under a freshly
generated id (the generator's random salt is elided; only freshness
matters) and the unsubscribe callback carrying `listenerId` is
returned. -/
def subscribeL (sc : ScopeState) (actionNames : List String) (throws : Bool)
    (throwReason : Value) : Except EngineError (ScopeState × String) :=
  match actionNames.find? (fun a => (lookupL sc.actions a).isNone) with
  | some missing => .error (.actionNotPresent missing)
  | none =>
    let listenerId := "ScopeListener:" ++ toString (sc.listenerNextId + 1)
    .ok ({ sc with
            listeners := sc.listeners ++
              [{ id := listenerId, filter := actionNames, throws := throws,
                 throwReason := throwReason }]
            listenerNextId := sc.listenerNextId + 1 },
         listenerId)

/-- A scope configuration as passed to `Store.createScope`
(src/index.ts lines 786-793); `name = none` requests a generated name. -/
structure ScopeConfigM where
  name : Option String
  initState : Value
  isImmutabilityEnabled : Bool
  isSubscribedMacroAutoCreateEnabled : Bool
  isFrozen : Bool

/-- The mutable state of a `StoreImpl` (src/index.ts lines 1455-1467). -/
structure StoreState where
  name : String
  isFrozen : Bool
  scopes : List (String × ScopeState)
  statesToRestore : List (String × Value)
  scopeNameNextId : Nat

/-- `hasScope` (src/index.ts lines 1532-1534). -/
def StoreState.hasScope (st : StoreState) (scopeName : String) : Bool :=
  (lookupL st.scopes scopeName).isSome

/-- `StoreImpl.createScope` (src/index.ts lines 1483-1526).  Returns the
store after the call and the created scope.  The scope-name generator's
random salt is elided (only freshness matters); middleware `postSetup`
and the `onCreateScope`/`onChangeStore` notifications are observation
only. -/
def StoreState.createScope (st : StoreState) (config : ScopeConfigM)
    (useRestoredStateIfAvailable : Bool) :
    Except EngineError (StoreState × ScopeState) :=
  if st.isFrozen then .error .storeLocked
  else
    let resolved :=
      match config.name with
      | some n => (n, st)
      | none => ("Scope:" ++ toString (st.scopeNameNextId + 1),
                 { st with scopeNameNextId := st.scopeNameNextId + 1 })
    match resolved with
    | (name, st1) =>
      if (lookupL st1.scopes name).isSome then .error (.duplicateScopeName name)
      else
        let useRestoredState :=
          useRestoredStateIfAvailable && (lookupL st1.statesToRestore name).isSome
        let state :=
          if useRestoredState then
            (lookupL st1.statesToRestore name).getD config.initState
          else config.initState
        let st2 :=
          if useRestoredState then
            { st1 with statesToRestore := delKey st1.statesToRestore name }
          else st1
        let scope := mkScope st2.name name state config.isImmutabilityEnabled
          config.isSubscribedMacroAutoCreateEnabled config.isFrozen
        .ok ({ st2 with scopes := st2.scopes ++ [(name, scope)] }, scope)

/-- `StoreImpl.restore` (src/index.ts lines 1546-1553): for each binding
of the restored-states object in property order, restore the named
scope if it exists, otherwise stash the state in `_statesToRestore`.
An exception thrown by a scope's `restore` aborts the iteration and
propagates (the inner dispatch logs are not aggregated here; no
property below depends on them). -/
def StoreState.restoreAll (st : StoreState) (restoredStates : List (String × Value))
    (emitEvent : Bool) : Except Thrown StoreState :=
  match restoredStates with
  | [] => .ok st
  | (n, v) :: rest =>
    match lookupL st.scopes n with
    | some sc =>
      let r := sc.restoreTo v emitEvent
      match r.result with
      | .ok _ => StoreState.restoreAll { st with scopes := setKey st.scopes n r.scope } rest emitEvent
      | .error e => .error e
    | none =>
      StoreState.restoreAll { st with statesToRestore := setKey st.statesToRestore n v } rest emitEvent

/-!
The earlier free-standing variant (first document in src/index.ts,
lines 1-765): the pieces of `ComposeScopeImpl` (lines 583-640) and
`composeScope` (lines 700-722) that claims about scope composition
refer to.  Member scopes are modelled by their observable surface:
name, current state, lock flag and registered action names.
-/

/-- A member scope of the free-standing variant as composition observes
it (its `name`, `state`, `isLocked` and `supportActions` surface). -/
structure V1Scope where
  name : String
  state : Value
  isFrozen : Bool
  actions : List String
deriving Repr

/-- The composite scope built by `ComposeScopeImpl` (lines 583-640):
an `AsyncScopeImpl` whose action set is the de-duplicated union of the
members' action names, locked at the end of its constructor, holding
the member list for its aggregated `state` getter. -/
structure V1ComposeScope where
  name : String
  members : List V1Scope
  actions : List String
  isFrozen : Bool

/-- `scope.lock()` on a member (line 600). -/
def V1Scope.lock (s : V1Scope) : V1Scope :=
  { s with isFrozen := true }

/-- JS `self.indexOf(x) === i` de-duplication, keeping first
occurrences; JS compares by object identity, modelled structurally
(scope instances in the registry are pairwise distinct records). -/
def dedupKeepFirst {α : Type} [BEq α] : List α → List α → List α
  | _, [] => []
  | seen, x :: rest =>
      if seen.contains x then dedupKeepFirst seen rest
      else x :: dedupKeepFirst (x :: seen) rest

mutual
/-- Structural equality on values, standing in for JS identity in the
de-duplication filter (registry-held scope instances are pairwise
distinct records, where the two coincide). -/
def Value.beq : Value → Value → Bool
  | .vNull, .vNull => true
  | .vUndef, .vUndef => true
  | .vNum n, .vNum m => n == m
  | .vStr s, .vStr t => s == t
  | .vBool a, .vBool b => a == b
  | .vObj f1 l1, .vObj f2 l2 => (f1 == f2) && beqFieldsV l1 l2
  | _, _ => false

/-- Pointwise `Value.beq` over property lists. -/
def beqFieldsV : List (String × Value) → List (String × Value) → Bool
  | [], [] => true
  | (k1, v1) :: r1, (k2, v2) :: r2 => (k1 == k2) && Value.beq v1 v2 && beqFieldsV r1 r2
  | _, _ => false
end

instance : BEq Value := ⟨Value.beq⟩

instance : BEq V1Scope :=
  ⟨fun a b => a.name == b.name && Value.beq a.state b.state
      && (a.isFrozen == b.isFrozen) && a.actions == b.actions⟩

/-- An argument to `composeScope`: a scope instance or a registry name. -/
inductive V1ScopeRef where
  | inst (s : V1Scope) : V1ScopeRef
  | byName (n : String) : V1ScopeRef

/-- The `scopes.map(scope => typeof scope === 'string' ? getScope(scope)
: scope)` resolution step (lines 708-710); `getScope` (lines 731-736)
throws when the name is not in the registry. -/
def v1Resolve (registry : List (String × V1Scope)) :
    List V1ScopeRef → Except String (List V1Scope)
  | [] => .ok []
  | .inst s :: rest => (v1Resolve registry rest).map (fun l => s :: l)
  | .byName n :: rest =>
    match lookupL registry n with
    | some s => (v1Resolve registry rest).map (fun l => s :: l)
    | none => .error n

/-- `ComposeScopeImpl`'s constructor effect on its members and its own
surface (lines 587-630): every member is locked and subscribed to
(re-publication is observation only), the de-duplicated union of member
action names is registered on the composite, and the composite locks
itself last. -/
def v1ComposeCtor (name : String) (members : List V1Scope) : V1ComposeScope :=
  { name := name
    members := members.map V1Scope.lock
    actions := dedupKeepFirst [] (members.foldl (fun acc s => acc ++ s.actions) [])
    isFrozen := true }

/-- The aggregated `state` getter (lines 632-638):
`this._scopes.forEach(scope => state[scope.name] = scope.state)`. -/
def V1ComposeScope.stateAgg (c : V1ComposeScope) : List (String × Value) :=
  c.members.foldl (fun o s => setKey o s.name s.state) []

/-- What `composeScope` can throw. -/
inductive V1Error where
  | scopeNotPresent (n : String) : V1Error
  | insufficientScopes : V1Error

/-- `composeScope` (lines 700-722): resolve names through the registry,
drop falsy entries and duplicates (`scope && self.indexOf(scope) === i`;
no falsy entries arise in the model), fail when fewer than two scopes
remain, otherwise construct the composite.  (The `name in scopes`
check on line 705 tests the argument array — the parameter shadows the
registry — and is vacuous for non-index names.) -/
def v1ComposeScope (name : String) (scopeRefs : List V1ScopeRef)
    (registry : List (String × V1Scope)) : Except V1Error V1ComposeScope :=
  match v1Resolve registry scopeRefs with
  | .error n => .error (.scopeNotPresent n)
  | .ok resolved =>
    let composeScopes := dedupKeepFirst [] resolved
    if composeScopes.length < 2 then .error .insufficientScopes
    else .ok (v1ComposeCtor name composeScopes)

/-!
Concrete fixtures used by the witnesses and the concrete evaluations
below.
-/

/-- A demonstration scope: store `TestStore`, scope `demo`, initial
state `0`, all flags default (immutability off, auto-macros off,
unlocked). -/
def demoScope : ScopeState := mkScope "TestStore" "demo" (Value.vNum 0) false false false

/-- `demoScope` extended with an action whose body synchronously
dispatches `inner` on its own scope, and the `inner` action itself. -/
def demoNested : ScopeState :=
  { demoScope with actions := demoScope.actions ++
      [("outer", ActionBody.nestedDispatch "inner" (Value.vNum 1)),
       ("inner", ActionBody.pureFn (fun _ p => p))] }

/-- `demoScope` extended with a throwing action and a harmless one. -/
def demoThrowing : ScopeState :=
  { demoScope with actions := demoScope.actions ++
      [("boom", ActionBody.throwFn (fun _ _ => Value.vStr "failure")),
       ("ok", ActionBody.pureFn (fun s _ => s))] }

/-- A scope with immutability enabled. -/
def immutScope : ScopeState := mkScope "TestStore" "imm" (Value.vNum 0) true false false

/-- `immutScope` extended with an action returning a fresh (unfrozen)
non-null object. -/
def immutMk : ScopeState :=
  { immutScope with actions := immutScope.actions ++
      [("mk", ActionBody.pureFn (fun _ _ => Value.vObj false [("a", Value.vNum 1)]))] }

/-- `demoScope` extended with two plain actions `A` and `B`. -/
def demoAB : ScopeState :=
  { demoScope with actions := demoScope.actions ++
      [("A", ActionBody.pureFn (fun _ p => p)), ("B", ActionBody.pureFn (fun s _ => s))] }

/-- `demoAB` after subscribing a listener filtered to `A`. -/
def demoAB1 : ScopeState :=
  match subscribeL demoAB ["A"] false Value.vNull with
  | .ok (sc, _) => sc
  | .error _ => demoAB

/-- `demoAB1` after additionally subscribing an unfiltered listener. -/
def demoAB2 : ScopeState :=
  match subscribeL demoAB1 [] false Value.vNull with
  | .ok (sc, _) => sc
  | .error _ => demoAB1

/-- A store holding no scopes and one pending restored state. -/
def demoStoreA : StoreState :=
  { name := "TestStore", isFrozen := false, scopes := [],
    statesToRestore := [("pending", Value.vNum 5)], scopeNameNextId := 0 }

/-- A scope config addressed at the pending name. -/
def demoCfg : ScopeConfigM :=
  { name := some "pending", initState := Value.vNull, isImmutabilityEnabled := false,
    isSubscribedMacroAutoCreateEnabled := false, isFrozen := false }

/-- A store owning the `demo` scope and holding no pending states. -/
def demoStoreB : StoreState :=
  { name := "TestStore", isFrozen := false, scopes := [("demo", demoScope)],
    statesToRestore := [], scopeNameNextId := 0 }

/-- Member scope `A` with state `1` supporting action `noop`. -/
def scA : V1Scope := { name := "A", state := Value.vNum 1, isFrozen := false, actions := ["noop"] }

/-- Member scope `B` with state `2` supporting action `noop`. -/
def scB : V1Scope := { name := "B", state := Value.vNum 2, isFrozen := false, actions := ["noop"] }

/-!
Basic facts about the freeze instrumentation and the association-list
map model, followed by the properties of the engine itself.
-/

mutual
theorem deepFreezeVal_idem : (v : Value) → deepFreezeVal (deepFreezeVal v) = deepFreezeVal v
  | .vNull => rfl
  | .vUndef => rfl
  | .vNum _ => rfl
  | .vStr _ => rfl
  | .vBool _ => rfl
  | .vObj _ fields => by
      simp [deepFreezeVal, deepFreezeFields_idem fields]

theorem deepFreezeFields_idem :
    (l : List (String × Value)) → deepFreezeFields (deepFreezeFields l) = deepFreezeFields l
  | [] => rfl
  | (k, v) :: rest => by
      simp [deepFreezeFields, deepFreezeVal_idem v, deepFreezeFields_idem rest]
end

mutual
theorem eraseFrozen_deepFreezeVal :
    (v : Value) → Value.eraseFrozen (deepFreezeVal v) = Value.eraseFrozen v
  | .vNull => rfl
  | .vUndef => rfl
  | .vNum _ => rfl
  | .vStr _ => rfl
  | .vBool _ => rfl
  | .vObj _ fields => by
      simp [deepFreezeVal, Value.eraseFrozen, eraseFrozenFields_deepFreezeFields fields]

theorem eraseFrozenFields_deepFreezeFields :
    (l : List (String × Value)) → eraseFrozenFields (deepFreezeFields l) = eraseFrozenFields l
  | [] => rfl
  | (k, v) :: rest => by
      simp [deepFreezeFields, eraseFrozenFields, eraseFrozen_deepFreezeVal v,
        eraseFrozenFields_deepFreezeFields rest]
end

theorem deepFreezeVal_of_not_object (v : Value) (h : v.isNonNullObject = false) :
    deepFreezeVal v = v := by
  cases v <;> simp_all [Value.isNonNullObject, deepFreezeVal]

theorem freezeProps_vNull (immut : Bool) : freezeProps immut Value.vNull = Value.vNull := by
  cases immut <;> simp [freezeProps, Value.truthy]

theorem freezeNewState_self (immut : Bool) (v : Value) :
    freezeNewState immut (freezeProps immut v) (freezeProps immut v) = freezeProps immut v := by
  cases immut with
  | false => simp [freezeProps, freezeNewState]
  | true =>
    cases v with
    | vObj fr fields =>
        simp [freezeProps, freezeNewState, Value.truthy, Value.typeofIsObject, deepFreezeVal,
          deepFreezeFields_idem]
    | vNull => simp [freezeProps, freezeNewState, Value.truthy]
    | vUndef => simp [freezeProps, freezeNewState, Value.truthy, Value.typeofIsObject]
    | vNum n =>
        by_cases h : n = 0 <;>
          simp [freezeProps, freezeNewState, Value.truthy, Value.typeofIsObject, h]
    | vStr s =>
        by_cases h : s = "" <;>
          simp [freezeProps, freezeNewState, Value.truthy, Value.typeofIsObject, h]
    | vBool b => cases b <;> simp [freezeProps, freezeNewState, Value.truthy, Value.typeofIsObject]

theorem freezeNewState_nullProps (immut : Bool) (v : Value) :
    freezeNewState immut Value.vNull (freezeProps immut v) = freezeProps immut v := by
  cases immut with
  | false => simp [freezeProps, freezeNewState]
  | true =>
    cases v with
    | vObj fr fields =>
        simp [freezeProps, freezeNewState, Value.truthy, Value.typeofIsObject, deepFreezeVal,
          deepFreezeFields_idem]
    | vNull => simp [freezeProps, freezeNewState, Value.truthy, Value.typeofIsObject]
    | vUndef => simp [freezeProps, freezeNewState, Value.truthy, Value.typeofIsObject]
    | vNum n =>
        by_cases h : n = 0 <;>
          simp [freezeProps, freezeNewState, Value.truthy, Value.typeofIsObject, h, deepFreezeVal]
    | vStr s =>
        by_cases h : s = "" <;>
          simp [freezeProps, freezeNewState, Value.truthy, Value.typeofIsObject, h, deepFreezeVal]
    | vBool b =>
        cases b <;>
          simp [freezeProps, freezeNewState, Value.truthy, Value.typeofIsObject, deepFreezeVal]

theorem eraseFrozen_freezeProps (immut : Bool) (v : Value) :
    Value.eraseFrozen (freezeProps immut v) = Value.eraseFrozen v := by
  unfold freezeProps
  by_cases h : (immut && v.truthy && v.typeofIsObject) = true <;>
    simp [h, eraseFrozen_deepFreezeVal]

theorem lookupL_eq_none_of_forall {α : Type} (l : List (String × α)) (k : String)
    (h : ∀ p ∈ l, p.1 ≠ k) : lookupL l k = none := by
  induction l with
  | nil => rfl
  | cons hd tl ih =>
    obtain ⟨k0, v0⟩ := hd
    have hk : k0 ≠ k := h (k0, v0) (by simp)
    simp only [lookupL, if_neg hk]
    exact ih (fun p hp => h p (List.mem_cons_of_mem _ hp))

theorem lookupL_append_of_none {α : Type} (l m : List (String × α)) (k : String)
    (h : lookupL l k = none) : lookupL (l ++ m) k = lookupL m k := by
  induction l with
  | nil => simp
  | cons hd tl ih =>
    obtain ⟨k0, v0⟩ := hd
    by_cases hk : k0 = k
    · simp [lookupL, hk] at h
    · simp [lookupL, hk] at h ⊢
      exact ih h

theorem lookupL_setKey_self {α : Type} (l : List (String × α)) (k : String) (v : α) :
    lookupL (setKey l k v) k = some v := by
  induction l with
  | nil => simp [setKey, lookupL]
  | cons hd tl ih =>
    obtain ⟨k0, v0⟩ := hd
    by_cases hk : k0 = k <;> simp [setKey, lookupL, hk, ih]

theorem lookupL_delKey_self {α : Type} (l : List (String × α)) (k : String)
    (h : (l.map Prod.fst).Nodup) : lookupL (delKey l k) k = none := by
  induction l with
  | nil => rfl
  | cons hd tl ih =>
    obtain ⟨k0, v0⟩ := hd
    rw [List.map_cons, List.nodup_cons] at h
    by_cases hk : k0 = k
    · subst hk
      simp only [delKey, if_pos rfl]
      refine lookupL_eq_none_of_forall tl k0 (fun p hp heq => h.1 ?_)
      have hm : p.1 ∈ tl.map Prod.fst := List.mem_map_of_mem Prod.fst hp
      rwa [heq] at hm
    · simp only [delKey, if_neg hk, lookupL, if_neg hk]
      exact ih h.2

theorem setKey_of_absent {α : Type} (l : List (String × α)) (k : String) (v : α)
    (h : lookupL l k = none) : setKey l k v = l ++ [(k, v)] := by
  induction l with
  | nil => rfl
  | cons hd tl ih =>
    obtain ⟨k0, v0⟩ := hd
    by_cases hk : k0 = k
    · simp [lookupL, hk] at h
    · simp [setKey, hk, lookupL] at h ⊢
      exact ih h

theorem foldl_setKey_eq_append (ms : List V1Scope) (acc : List (String × Value))
    (hAbs : ∀ s ∈ ms, lookupL acc s.name = none)
    (hNodup : (ms.map V1Scope.name).Nodup) :
    ms.foldl (fun o s => setKey o s.name s.state) acc
      = acc ++ ms.map (fun s => (s.name, s.state)) := by
  induction ms generalizing acc with
  | nil => simp
  | cons s rest ih =>
    rw [List.map_cons, List.nodup_cons] at hNodup
    rw [List.foldl_cons, setKey_of_absent _ _ _ (hAbs s (by simp)),
      ih (acc ++ [(s.name, s.state)]) ?_ hNodup.2]
    · simp
    · intro t ht
      rw [lookupL_append_of_none _ _ _ (hAbs t (List.mem_cons_of_mem _ ht))]
      have hne : t.name ≠ s.name := by
        intro he
        exact hNodup.1 (he ▸ List.mem_map_of_mem V1Scope.name ht)
      simp [lookupL, Ne.symm hne]

theorem mkScope_actions (sn n : String) (i : Value) (a b c : Bool) :
    (mkScope sn n i a b c).actions
      = [(RESET_SCOPE_ACTION, ActionBody.resetBuiltin),
         (RESTORE_SCOPE_ACTION, ActionBody.restoreBuiltin)] := rfl

theorem dispatch_eq_succ (sc : ScopeState) (a : String) (p : Value) (e : Bool) :
    sc.dispatch a p e = dispatchFuel (Nat.succ 7) sc a p e := rfl

/-- The effect of a successful `restore(v, emitEvent)` on an available
scope whose builtin restore action is registered: it returns the
(possibly frozen) restored value and rebases both `_state` and
`_initState` to it. -/
theorem restore_ok (sc : ScopeState) (v : Value) (emitEvent : Bool)
    (hRestore : lookupL sc.actions RESTORE_SCOPE_ACTION = some ActionBody.restoreBuiltin)
    (hP : sc.isActionInProgress = false) :
    (sc.restoreTo v emitEvent).result = Except.ok (freezeProps sc.isImmutabilityEnabled v)
    ∧ (sc.restoreTo v emitEvent).scope
      = { sc with state := freezeProps sc.isImmutabilityEnabled v
                  initState := freezeProps sc.isImmutabilityEnabled v
                  context := Value.vNull
                  contextEvent := none
                  isActionInProgress := false } := by
  rw [ScopeState.restoreTo, dispatch_eq_succ]
  refine ⟨?_, ?_⟩
  · simp [dispatchFuel, hRestore, hP, freezeNewState_self]
  · cases emitEvent <;> simp [dispatchFuel, hRestore, hP, freezeNewState_self]

/-- C1: the claim says a reentrant dispatch performed synchronously by
the action body itself is allowed, uses the in-flight context as its
`oldState` and is tracked as a child event.  On the code this fails:
`dispatch` sets `_isActionInProgress` before invoking the action and
its availability guard unconditionally rejects any dispatch issued
while the flag is set, so the action body's own synchronous nested
dispatch throws the dispatch-unavailable error (which the outer catch
then wraps into the `ScopeError` thrown to the caller), and no child
event is ever recorded. -/
theorem c1_reentrant_dispatch_rejected :
    (demoNested.dispatch "outer" (Value.vNum 7) true).result
      = Except.error (Thrown.scopeError (ScopeError.mk
          (Reason.rawError EngineError.dispatchUnavailable)
          (Value.vNum 0) "demo" "outer" (Value.vNum 7)))
    ∧ (demoNested.dispatch "outer" (Value.vNum 7) true).devLog
      = [DevEntry.onActionError (ScopeError.mk
          (Reason.rawError EngineError.dispatchUnavailable)
          (Value.vNum 0) "demo" "outer" (Value.vNum 7))]
    ∧ (demoNested.dispatch "outer" (Value.vNum 7) true).calls = []
    ∧ demoNested.isActionDispatchAvailable = true :=
  ⟨rfl, rfl, rfl, rfl⟩

/-- C2: the claim says that after a dispatch finishes either way
(return or throw) the scope accepts the next unrelated dispatch.  On
the code this fails for the throw path: `onRejected` never resets
`_isActionInProgress`, so after a throwing action the scope reports
`isActionDispatchAvailable = false` forever and every subsequent
dispatch (even of a registered action, and even the builtin `reset`)
is rejected with the dispatch-unavailable error; after a successful
dispatch the flag is reset and the next dispatch is accepted. -/
theorem c2_scope_stuck_after_action_throw :
    (demoThrowing.dispatch "boom" Value.vNull true).result
      = Except.error (Thrown.scopeError (ScopeError.mk
          (Reason.thrownValue (Value.vStr "failure")) (Value.vNum 0) "demo" "boom" Value.vNull))
    ∧ (demoThrowing.dispatch "boom" Value.vNull true).scope.isActionDispatchAvailable = false
    ∧ ((demoThrowing.dispatch "boom" Value.vNull true).scope.dispatch "ok" Value.vNull true).result
      = Except.error (Thrown.raw EngineError.dispatchUnavailable)
    ∧ (((demoThrowing.dispatch "boom" Value.vNull true).scope.reset true)).result
      = Except.error (Thrown.raw EngineError.dispatchUnavailable)
    ∧ (demoThrowing.dispatch "ok" Value.vNull true).scope.isActionDispatchAvailable = true
    ∧ ((demoThrowing.dispatch "ok" Value.vNull true).scope.dispatch "ok" Value.vNull true).result
      = Except.ok (Value.vNum 0) :=
  ⟨rfl, rfl, rfl, rfl, rfl, rfl⟩

/-- C3: the claim says that with immutability enabled every new state
produced by a successful dispatch is deep-frozen exactly when it is a
non-null object (and likewise for props).  On the code the new-state
guard reads `!!newState && typeof props === 'object'` — it tests the
type of `props`, not of the new state — so dispatching with numeric
props commits a non-null-object new state without freezing it, while
with object props the same new state is frozen; the props half of the
claim does hold (`freezeProps` freezes exactly non-null-object props). -/
theorem c3_newstate_freeze_guard_tests_props_type :
    (immutMk.dispatch "mk" (Value.vNum 5) true).result
      = Except.ok (Value.vObj false [("a", Value.vNum 1)])
    ∧ (immutMk.dispatch "mk" (Value.vNum 5) true).scope.state
      = Value.vObj false [("a", Value.vNum 1)]
    ∧ Value.isNonNullObject (immutMk.dispatch "mk" (Value.vNum 5) true).scope.state = true
    ∧ Value.deepFrozen (immutMk.dispatch "mk" (Value.vNum 5) true).scope.state = false
    ∧ (immutMk.dispatch "mk" (Value.vObj false []) true).scope.state
      = Value.vObj true [("a", Value.vNum 1)]
    ∧ freezeProps true (Value.vObj false [("b", Value.vNum 2)])
      = Value.vObj true [("b", Value.vNum 2)]
    ∧ freezeProps true Value.vNull = Value.vNull :=
  ⟨rfl, rfl, rfl, rfl, rfl, rfl, rfl⟩

/-- C4: when the registered action throws, `dispatch` throws the
`ScopeError` record itself (the raw exception only appears as its
`reason`), with `oldState` equal to the pre-dispatch state, `scopeName`,
`actionName` and `props` filled in; the record is reported to the
DevTool action-error hook exactly once, no listener runs, and the
committed state is unchanged. -/
theorem c4_action_error_contract (sc : ScopeState) (a : String) (f : Value → Value → Value)
    (p : Value) (emitEvent : Bool)
    (hA : lookupL sc.actions a = some (ActionBody.throwFn f))
    (hP : sc.isActionInProgress = false) :
    (sc.dispatch a p emitEvent).result
      = Except.error (Thrown.scopeError (ScopeError.mk
          (Reason.thrownValue (f sc.state (freezeProps sc.isImmutabilityEnabled p)))
          sc.state sc.name a (freezeProps sc.isImmutabilityEnabled p)))
    ∧ (sc.dispatch a p emitEvent).devLog
      = [DevEntry.onActionError (ScopeError.mk
          (Reason.thrownValue (f sc.state (freezeProps sc.isImmutabilityEnabled p)))
          sc.state sc.name a (freezeProps sc.isImmutabilityEnabled p))]
    ∧ (sc.dispatch a p emitEvent).calls = []
    ∧ (sc.dispatch a p emitEvent).scope.state = sc.state := by
  rw [dispatch_eq_succ]
  simp [dispatchFuel, hA, hP]

theorem c4_action_error_contract_witness :
    lookupL demoThrowing.actions "boom"
      = some (ActionBody.throwFn (fun _ _ => Value.vStr "failure"))
    ∧ demoThrowing.isActionInProgress = false
    ∧ ((demoThrowing.dispatch "boom" (Value.vNum 9) true).result
        = Except.error (Thrown.scopeError (ScopeError.mk
            (Reason.thrownValue ((fun (_ _ : Value) => Value.vStr "failure") demoThrowing.state
              (freezeProps demoThrowing.isImmutabilityEnabled (Value.vNum 9))))
            demoThrowing.state demoThrowing.name "boom"
            (freezeProps demoThrowing.isImmutabilityEnabled (Value.vNum 9))))
      ∧ (demoThrowing.dispatch "boom" (Value.vNum 9) true).devLog
        = [DevEntry.onActionError (ScopeError.mk
            (Reason.thrownValue ((fun (_ _ : Value) => Value.vStr "failure") demoThrowing.state
              (freezeProps demoThrowing.isImmutabilityEnabled (Value.vNum 9))))
            demoThrowing.state demoThrowing.name "boom"
            (freezeProps demoThrowing.isImmutabilityEnabled (Value.vNum 9)))]
      ∧ (demoThrowing.dispatch "boom" (Value.vNum 9) true).calls = []
      ∧ (demoThrowing.dispatch "boom" (Value.vNum 9) true).scope.state = demoThrowing.state) :=
  ⟨rfl, rfl, c4_action_error_contract demoThrowing "boom" (fun _ _ => Value.vStr "failure")
    (Value.vNum 9) true rfl rfl⟩

/-- C5: `restore(v)` immediately followed by `reset()` yields state `v`:
the builtin restore action rebases the initial-state snapshot to `v`
and the builtin reset action returns that most recently restored
snapshot.  With immutability enabled the value is the same object
frozen in place (`eraseFrozen`-equal to `v`); with immutability
disabled it is `v` itself. -/
theorem c5_restore_then_reset (sc : ScopeState) (v : Value)
    (hReset : lookupL sc.actions RESET_SCOPE_ACTION = some ActionBody.resetBuiltin)
    (hRestore : lookupL sc.actions RESTORE_SCOPE_ACTION = some ActionBody.restoreBuiltin)
    (hP : sc.isActionInProgress = false) :
    ((sc.restoreTo v true).scope.reset true).result
      = Except.ok (freezeProps sc.isImmutabilityEnabled v)
    ∧ ((sc.restoreTo v true).scope.reset true).scope.state
      = freezeProps sc.isImmutabilityEnabled v
    ∧ Value.eraseFrozen (freezeProps sc.isImmutabilityEnabled v) = Value.eraseFrozen v
    ∧ (sc.isImmutabilityEnabled = false → freezeProps sc.isImmutabilityEnabled v = v) := by
  have hR := (restore_ok sc v true hRestore hP).2
  rw [ScopeState.reset, hR]
  refine ⟨?_, ?_, eraseFrozen_freezeProps _ _, ?_⟩
  · rw [dispatch_eq_succ]
    simp [dispatchFuel, hReset, freezeProps_vNull, freezeNewState_nullProps]
  · rw [dispatch_eq_succ]
    simp [dispatchFuel, hReset, freezeProps_vNull, freezeNewState_nullProps]
  · intro h
    simp [freezeProps, h]

theorem c5_restore_then_reset_witness :
    lookupL demoScope.actions RESET_SCOPE_ACTION = some ActionBody.resetBuiltin
    ∧ lookupL demoScope.actions RESTORE_SCOPE_ACTION = some ActionBody.restoreBuiltin
    ∧ demoScope.isActionInProgress = false
    ∧ (((demoScope.restoreTo (Value.vNum 42) true).scope.reset true).result
        = Except.ok (freezeProps demoScope.isImmutabilityEnabled (Value.vNum 42))
      ∧ ((demoScope.restoreTo (Value.vNum 42) true).scope.reset true).scope.state
        = freezeProps demoScope.isImmutabilityEnabled (Value.vNum 42)
      ∧ Value.eraseFrozen (freezeProps demoScope.isImmutabilityEnabled (Value.vNum 42))
        = Value.eraseFrozen (Value.vNum 42)
      ∧ (demoScope.isImmutabilityEnabled = false →
          freezeProps demoScope.isImmutabilityEnabled (Value.vNum 42) = Value.vNum 42)) :=
  ⟨rfl, rfl, rfl, c5_restore_then_reset demoScope (Value.vNum 42) rfl rfl rfl⟩

/-- C6: a listener subscribed with the filter `[a]` is never invoked
for a dispatch of an action `b` not in that filter and is invoked
exactly once per (event-emitting) dispatch of `a`; a listener
subscribed with no filter is invoked for every such dispatch; and
`subscribe` fails when a named action is not registered. -/
theorem c6_listener_filtering (sc sc1 sc2 : ScopeState) (a b x : String)
    (fa fb : Value → Value → Value) (p q : Value) (id1 id2 : String)
    (hab : a ≠ b)
    (hA : lookupL sc.actions a = some (ActionBody.pureFn fa))
    (hB : lookupL sc.actions b = some (ActionBody.pureFn fb))
    (hP : sc.isActionInProgress = false)
    (hL : sc.listeners = [])
    (hX : lookupL sc.actions x = none)
    (hS1 : subscribeL sc [a] false Value.vNull = Except.ok (sc1, id1))
    (hS2 : subscribeL sc1 [] false Value.vNull = Except.ok (sc2, id2)) :
    ((sc2.dispatch b q true).calls.map Prod.fst = [id2])
    ∧ ((sc2.dispatch a p true).calls.map Prod.fst = [id1, id2])
    ∧ subscribeL sc [x] false Value.vNull = Except.error (EngineError.actionNotPresent x) := by
  simp [subscribeL, hA, List.find?] at hS1
  obtain ⟨hsc1, hid1⟩ := hS1
  subst hsc1
  simp [subscribeL, hL] at hS2
  obtain ⟨hsc2, hid2⟩ := hS2
  subst hsc2
  refine ⟨?_, ?_, ?_⟩
  · rw [dispatch_eq_succ]
    simp [dispatchFuel, hB, hP, hL, dispatchEventsLog, dispatchEventLog, listenerFanout,
      buildScopeEvent, ScopeEvent.children, ScopeEvent.actionName, Ne.symm hab, hid2]
  · rw [dispatch_eq_succ]
    simp [dispatchFuel, hA, hP, hL, dispatchEventsLog, dispatchEventLog, listenerFanout,
      buildScopeEvent, ScopeEvent.children, ScopeEvent.actionName, hid1, hid2]
  · simp [subscribeL, hX, List.find?]

theorem c6_listener_filtering_witness :
    (("A" : String) ≠ "B")
    ∧ lookupL demoAB.actions "A" = some (ActionBody.pureFn (fun _ p => p))
    ∧ lookupL demoAB.actions "B" = some (ActionBody.pureFn (fun s _ => s))
    ∧ demoAB.isActionInProgress = false
    ∧ demoAB.listeners = []
    ∧ lookupL demoAB.actions "C" = none
    ∧ subscribeL demoAB ["A"] false Value.vNull = Except.ok (demoAB1, "ScopeListener:1")
    ∧ subscribeL demoAB1 [] false Value.vNull = Except.ok (demoAB2, "ScopeListener:2")
    ∧ (((demoAB2.dispatch "B" (Value.vNum 3) true).calls.map Prod.fst = ["ScopeListener:2"])
      ∧ ((demoAB2.dispatch "A" (Value.vNum 4) true).calls.map Prod.fst
          = ["ScopeListener:1", "ScopeListener:2"])
      ∧ subscribeL demoAB ["C"] false Value.vNull
          = Except.error (EngineError.actionNotPresent "C")) :=
  ⟨by decide, rfl, rfl, rfl, rfl, rfl, rfl, rfl,
   c6_listener_filtering demoAB demoAB1 demoAB2 "A" "B" "C" (fun _ p => p) (fun s _ => s)
     (Value.vNum 4) (Value.vNum 3) "ScopeListener:1" "ScopeListener:2"
     (by decide) rfl rfl rfl rfl rfl rfl rfl⟩

/-- C7: `Store.createScope` with `useRestoredStateIfAvailable` consumes
a pending restored state under the resolved name as the new scope's
initial state (instead of the configured one) and removes it from the
pending set; `Store.restore` stashes states addressed to not-yet-created
scopes in the pending set and restores existing scopes directly. -/
theorem c7_store_restore_routing (st : StoreState) (cfg : ScopeConfigM) (n : String) (v : Value)
    (emitEvent : Bool) (sc : ScopeState) :
    (cfg.name = some n → st.isFrozen = false → lookupL st.scopes n = none →
      lookupL st.statesToRestore n = some v → (st.statesToRestore.map Prod.fst).Nodup →
      ∃ st2 scope, st.createScope cfg true = Except.ok (st2, scope) ∧
        scope.state = v ∧ scope.initState = v ∧
        lookupL st2.statesToRestore n = none ∧ lookupL st2.scopes n = some scope)
    ∧ (lookupL st.scopes n = none →
        st.restoreAll [(n, v)] emitEvent
            = Except.ok { st with statesToRestore := setKey st.statesToRestore n v }
        ∧ lookupL (setKey st.statesToRestore n v) n = some v)
    ∧ (lookupL st.scopes n = some sc →
        lookupL sc.actions RESTORE_SCOPE_ACTION = some ActionBody.restoreBuiltin →
        sc.isActionInProgress = false →
        ∃ st2, st.restoreAll [(n, v)] emitEvent = Except.ok st2 ∧
          ∃ sc2, lookupL st2.scopes n = some sc2 ∧
            sc2.state = freezeProps sc.isImmutabilityEnabled v ∧
            sc2.initState = freezeProps sc.isImmutabilityEnabled v) := by
  refine ⟨?_, ?_, ?_⟩
  · intro hName hF hNoScope hPend hNodup
    have hc : st.createScope cfg true
        = Except.ok
            ({ st with statesToRestore := delKey st.statesToRestore n,
                       scopes := st.scopes
                         ++ [(n, mkScope st.name n v cfg.isImmutabilityEnabled
                               cfg.isSubscribedMacroAutoCreateEnabled cfg.isFrozen)] },
             mkScope st.name n v cfg.isImmutabilityEnabled
               cfg.isSubscribedMacroAutoCreateEnabled cfg.isFrozen) := by
      simp [StoreState.createScope, hName, hF, hNoScope, hPend]
    refine ⟨_, _, hc, rfl, rfl, ?_, ?_⟩
    · exact lookupL_delKey_self _ _ hNodup
    · rw [lookupL_append_of_none _ _ _ hNoScope]
      simp [lookupL]
  · intro hNoScope
    refine ⟨?_, lookupL_setKey_self _ _ _⟩
    simp [StoreState.restoreAll, hNoScope]
  · intro hScope hRestore hP
    have hr := restore_ok sc v emitEvent hRestore hP
    refine ⟨{ st with scopes := setKey st.scopes n (sc.restoreTo v emitEvent).scope }, ?_, ?_⟩
    · simp [StoreState.restoreAll, hScope, hr.1]
    · refine ⟨(sc.restoreTo v emitEvent).scope, lookupL_setKey_self _ _ _, ?_, ?_⟩
      · rw [hr.2]
      · rw [hr.2]

theorem c7_store_restore_routing_witness :
    (demoCfg.name = some "pending"
      ∧ demoStoreA.isFrozen = false
      ∧ lookupL demoStoreA.scopes "pending" = none
      ∧ lookupL demoStoreA.statesToRestore "pending" = some (Value.vNum 5)
      ∧ (demoStoreA.statesToRestore.map Prod.fst).Nodup
      ∧ ∃ st2 scope, demoStoreA.createScope demoCfg true = Except.ok (st2, scope) ∧
          scope.state = Value.vNum 5 ∧ scope.initState = Value.vNum 5 ∧
          lookupL st2.statesToRestore "pending" = none ∧
          lookupL st2.scopes "pending" = some scope)
    ∧ (lookupL demoStoreA.scopes "other" = none
      ∧ demoStoreA.restoreAll [("other", Value.vNum 7)] true
          = Except.ok { demoStoreA with
              statesToRestore := setKey demoStoreA.statesToRestore "other" (Value.vNum 7) }
      ∧ lookupL (setKey demoStoreA.statesToRestore "other" (Value.vNum 7)) "other"
          = some (Value.vNum 7))
    ∧ (lookupL demoStoreB.scopes "demo" = some demoScope
      ∧ lookupL demoScope.actions RESTORE_SCOPE_ACTION = some ActionBody.restoreBuiltin
      ∧ demoScope.isActionInProgress = false
      ∧ ∃ st2, demoStoreB.restoreAll [("demo", Value.vNum 8)] true = Except.ok st2 ∧
          ∃ sc2, lookupL st2.scopes "demo" = some sc2 ∧
            sc2.state = freezeProps demoScope.isImmutabilityEnabled (Value.vNum 8) ∧
            sc2.initState = freezeProps demoScope.isImmutabilityEnabled (Value.vNum 8)) := by
  refine ⟨⟨rfl, rfl, rfl, rfl, by decide, ?_⟩, ⟨rfl, ?_, ?_⟩, ⟨rfl, rfl, rfl, ?_⟩⟩
  · exact (c7_store_restore_routing demoStoreA demoCfg "pending" (Value.vNum 5) true demoScope).1
      rfl rfl rfl rfl (by decide)
  · exact ((c7_store_restore_routing demoStoreA demoCfg "other" (Value.vNum 7) true
      demoScope).2.1 rfl).1
  · exact ((c7_store_restore_routing demoStoreA demoCfg "other" (Value.vNum 7) true
      demoScope).2.1 rfl).2
  · exact (c7_store_restore_routing demoStoreB demoCfg "demo" (Value.vNum 8) true
      demoScope).2.2 rfl rfl rfl

/-- C8: `composeScope` fails with the insufficient-scopes error when
fewer than two distinct scopes remain after name resolution and
de-duplication; on success every member scope is locked, the composite
itself is locked immediately after construction, and the composite's
aggregated state maps each member's name to that member's current
state. -/
theorem c8_compose_scope_contract (name : String) (refs : List V1ScopeRef)
    (registry : List (String × V1Scope)) (resolved : List V1Scope)
    (hRes : v1Resolve registry refs = Except.ok resolved) :
    ((dedupKeepFirst [] resolved).length < 2 →
       v1ComposeScope name refs registry = Except.error V1Error.insufficientScopes)
    ∧ (∀ c, v1ComposeScope name refs registry = Except.ok c →
        (∀ s ∈ c.members, s.isFrozen = true)
        ∧ c.isFrozen = true
        ∧ ((c.members.map V1Scope.name).Nodup →
            c.stateAgg = c.members.map (fun s => (s.name, s.state)))) := by
  constructor
  · intro hlen
    simp [v1ComposeScope, hRes, hlen]
  · intro c hc
    simp only [v1ComposeScope, hRes] at hc
    by_cases hlen : (dedupKeepFirst [] resolved).length < 2
    · simp [hlen] at hc
    · simp only [hlen, if_neg, if_false] at hc
      cases hc
      refine ⟨?_, rfl, ?_⟩
      · intro s hs
        simp [v1ComposeCtor] at hs
        obtain ⟨t, _, rfl⟩ := hs
        rfl
      · intro hnd
        exact foldl_setKey_eq_append _ [] (fun s _ => rfl) hnd

theorem c8_compose_scope_contract_witness :
    v1Resolve [] [V1ScopeRef.inst scA, V1ScopeRef.inst scB] = Except.ok [scA, scB]
    ∧ v1ComposeScope "AB" [V1ScopeRef.inst scA] [] = Except.error V1Error.insufficientScopes
    ∧ (∃ c, v1ComposeScope "AB" [V1ScopeRef.inst scA, V1ScopeRef.inst scB] [] = Except.ok c
        ∧ (∀ s ∈ c.members, s.isFrozen = true)
        ∧ c.isFrozen = true
        ∧ c.stateAgg = [("A", Value.vNum 1), ("B", Value.vNum 2)]
        ∧ c.actions = ["noop"]) := by
  refine ⟨rfl, ?_, ?_⟩
  · exact (c8_compose_scope_contract "AB" [V1ScopeRef.inst scA] [] [scA] rfl).1 (by decide)
  · refine ⟨v1ComposeCtor "AB" [scA, scB], rfl, ?_, ?_, rfl, rfl⟩
    · exact ((c8_compose_scope_contract "AB" [V1ScopeRef.inst scA, V1ScopeRef.inst scB] []
        [scA, scB] rfl).2 (v1ComposeCtor "AB" [scA, scB]) rfl).1
    · exact ((c8_compose_scope_contract "AB" [V1ScopeRef.inst scA, V1ScopeRef.inst scB] []
        [scA, scB] rfl).2 (v1ComposeCtor "AB" [scA, scB]) rfl).2.1

/-- C9: the two builtin actions are registered in the constructor
before the frozen flag is assigned, so even a scope constructed with
`isFrozen = true` supports exactly `_reset` and `_restore` right after
construction; such a scope rejects any further `registerAction` with
the locked error, while `reset()` and `restore()` still dispatch
successfully. -/
theorem c9_builtins_on_frozen_scope (storeName name : String) (init : Value)
    (immut subAuto : Bool) :
    (mkScope storeName name init immut subAuto true).supportActions
      = [RESET_SCOPE_ACTION, RESTORE_SCOPE_ACTION]
    ∧ (mkScope storeName name init immut subAuto true).isFrozen = true
    ∧ (∀ (a : String) (body : ActionBody),
        registerAction (mkScope storeName name init immut subAuto true) a body
          = Except.error EngineError.scopeLocked)
    ∧ ((mkScope storeName name init immut subAuto true).reset true).result
      = Except.ok (freezeNewState immut Value.vNull init)
    ∧ (∀ v : Value, ((mkScope storeName name init immut subAuto true).restoreTo v true).result
      = Except.ok (freezeProps immut v)) := by
  refine ⟨rfl, rfl, ?_, ?_, ?_⟩
  · intro a body
    simp [registerAction, mkScope, RESET_SCOPE_ACTION, RESTORE_SCOPE_ACTION, lookupL]
  · rw [ScopeState.reset, dispatch_eq_succ]
    simp [dispatchFuel, mkScope, registerAction, lookupL, RESET_SCOPE_ACTION,
      RESTORE_SCOPE_ACTION, freezeProps_vNull, freezeNewState_nullProps]
  · intro v
    exact (restore_ok (mkScope storeName name init immut subAuto true) v true rfl rfl).1

/-- C10: a successful dispatch with `emitEvent = false` still commits
the new state and returns it, but no listener is invoked and the
DevTool `onAction` hook is not called; apart from the committed state
and the transient context fields, the scope is unchanged. -/
theorem c10_dispatch_without_emit (sc : ScopeState) (a : String) (f : Value → Value → Value)
    (p : Value)
    (hA : lookupL sc.actions a = some (ActionBody.pureFn f))
    (hP : sc.isActionInProgress = false)
    (hC : sc.contextEvent = none) :
    (sc.dispatch a p false).result
      = Except.ok (freezeNewState sc.isImmutabilityEnabled
          (freezeProps sc.isImmutabilityEnabled p)
          (f sc.state (freezeProps sc.isImmutabilityEnabled p)))
    ∧ (sc.dispatch a p false).scope
      = { sc with state := freezeNewState sc.isImmutabilityEnabled
                    (freezeProps sc.isImmutabilityEnabled p)
                    (f sc.state (freezeProps sc.isImmutabilityEnabled p))
                  context := Value.vNull
                  contextEvent := none
                  isActionInProgress := false }
    ∧ (sc.dispatch a p false).devLog = []
    ∧ (sc.dispatch a p false).calls = [] := by
  rw [dispatch_eq_succ]
  refine ⟨?_, ?_, ?_, ?_⟩ <;> simp [dispatchFuel, hA, hP, hC]

theorem c10_dispatch_without_emit_witness :
    lookupL demoAB.actions "A" = some (ActionBody.pureFn (fun _ p => p))
    ∧ demoAB.isActionInProgress = false
    ∧ demoAB.contextEvent = none
    ∧ ((demoAB.dispatch "A" (Value.vNum 6) false).result
        = Except.ok (freezeNewState demoAB.isImmutabilityEnabled
            (freezeProps demoAB.isImmutabilityEnabled (Value.vNum 6))
            ((fun (_ p : Value) => p) demoAB.state
              (freezeProps demoAB.isImmutabilityEnabled (Value.vNum 6))))
      ∧ (demoAB.dispatch "A" (Value.vNum 6) false).scope
        = { demoAB with
              state := freezeNewState demoAB.isImmutabilityEnabled
                (freezeProps demoAB.isImmutabilityEnabled (Value.vNum 6))
                ((fun (_ p : Value) => p) demoAB.state
                  (freezeProps demoAB.isImmutabilityEnabled (Value.vNum 6)))
              context := Value.vNull
              contextEvent := none
              isActionInProgress := false }
      ∧ (demoAB.dispatch "A" (Value.vNum 6) false).devLog = []
      ∧ (demoAB.dispatch "A" (Value.vNum 6) false).calls = []) :=
  ⟨rfl, rfl, rfl, c10_dispatch_without_emit demoAB "A" (fun _ p => p) (Value.vNum 6) rfl rfl rfl⟩
